import Mathlib

/-!
Shallow embedding of `core/tool_registry.py` from the google_workspace_mcp
repository, together with theorems settling the specification claims about
the tool registration and exception-containment core.

Modelling conventions:
* The process-wide global `_enabled_tools : Optional[Set[str]]` is passed
  explicitly as an `Option (Finset String)` argument to every function that
  reads it (the code writes it once at startup and reads it afterwards).
* A Python coroutine invocation either returns a value, raises the deliberate
  shutdown signal (`KeyboardInterrupt`), or raises an ordinary exception
  carrying its type name and message; this is the `Outcome` type, mirroring
  the two `except` arms of `global_exception_handler`.
* A tool function is its `__name__` plus its per-invocation behaviour.
* The FastMCP dispatch table `server._tool_manager._tools` (a dict keyed by
  tool name) is an association list `List (String × η)`; the host registers a
  function under its own `__name__`.
* Logging is modelled only where a claim mentions it: `filter_server_tools`
  returns, besides the new table, an `Option (Nat × Nat)` standing for the
  one `logger.info` line `(tools_removed, len(enabled_tools))`, emitted only
  when `tools_removed > 0`.
-/

namespace ToolRegistry

/-- Result of awaiting one invocation of a Python tool coroutine: a normal
return value, the deliberate shutdown signal (`KeyboardInterrupt`), or an
ordinary raised exception given by its type name and its message `str(e)`. -/
inductive Outcome (α : Type) where
  | ok : α → Outcome α
  | keyboardInterrupt : Outcome α
  | exc : String → String → Outcome α
  deriving DecidableEq, Repr

/-- A tool function: its stable `__name__` and its behaviour on one
invocation with arguments `a : α`, which the core never inspects beyond the
outcome. Tools return display strings. -/
structure ToolFunc (α : Type) where
  name : String
  run : α → Outcome String

/-- Python `str.startswith`, modelled on the code-point sequence of the
string. -/
def str_starts_with (s p : String) : Bool :=
  p.data.isPrefixOf s.data

/-- Embedding of `set_enabled_tools`: overwrites the global enabled set. -/
def set_enabled_tools (tool_names _old : Option (Finset String)) :
    Option (Finset String) :=
  tool_names

/-- Embedding of `get_enabled_tools`: reads the global enabled set. -/
def get_enabled_tools (enabledTools : Option (Finset String)) :
    Option (Finset String) :=
  enabledTools

/-- Embedding of `is_tool_enabled`: true when `_enabled_tools is None`
(open policy), otherwise membership in the enabled set. -/
def is_tool_enabled (enabledTools : Option (Finset String))
    (tool_name : String) : Bool :=
  match enabledTools with
  | none => true
  | some s => decide (tool_name ∈ s)

/-- Embedding of `conditional_tool`: the registration surface `server.tool()`
is a state-passing function `regFn` on an abstract server state `σ` that
returns the new state and the registered handler. When the tool is enabled
the decorator registers `func` through it; otherwise it returns `func`
untouched and never invokes the registration surface. -/
def conditional_tool (enabledTools : Option (Finset String))
    (regFn : σ → ToolFunc α → σ × ToolFunc α) (tool_name : String)
    (func : ToolFunc α) (s : σ) : σ × ToolFunc α :=
  if is_tool_enabled enabledTools tool_name then regFn s func
  else (s, func)

/-- Heuristic from `global_exception_handler` recognising a pre-formatted,
user-facing error message by its first characters: a bold marker, a literal
error tag, an API-error tag, or the corrupted-emoji sequence "âŒ". -/
def looks_preformatted (error_str : String) : Bool :=
  str_starts_with error_str "**" || str_starts_with error_str "Error:" ||
  str_starts_with error_str "API error" || str_starts_with error_str "âŒ"

/-- Generic structured message synthesized by `global_exception_handler` for
an unrecognised exception, naming the tool, the exception type, its message,
and a pointer to the server logs. Written right-associated. -/
def generic_error_message (tool_name error_type error_str : String) : String :=
  "**Unexpected Error in " ++
    (tool_name ++
      ("**\n\nAn error occurred while executing this tool:\n\n```\n" ++
        (error_type ++
          (": " ++
            (error_str ++
              ("\n```\n\nThis error has been logged for investigation. " ++
                "If this persists, please check the server logs at " ++
                "mcp_server_debug.log for more details."))))))

/-- Behaviour of the `try/except` body of the wrapper built by
`global_exception_handler`, as a function of the awaited outcome: return
values pass through, `KeyboardInterrupt` is re-raised, any other exception is
converted to a returned string (verbatim when pre-formatted, otherwise the
generic message). -/
def handle_outcome (tool_name : String) (o : Outcome String) :
    Outcome String :=
  match o with
  | .ok result => .ok result
  | .keyboardInterrupt => .keyboardInterrupt
  | .exc error_type error_str =>
      if looks_preformatted error_str then .ok error_str
      else .ok (generic_error_message tool_name error_type error_str)

/-- Embedding of `global_exception_handler`: the wrapper keeps the name of
`func` (via `functools.wraps`) and applies `handle_outcome` with that name to
every invocation outcome. -/
def global_exception_handler (func : ToolFunc α) : ToolFunc α :=
  { name := func.name
    run := fun a => handle_outcome func.name (func.run a) }

/-- Model of the pre-instrumentation host registration entry point (FastMCP):
registering a function records it in the dispatch table under its own
`__name__`. -/
def host_register (tools : List (String × ToolFunc α)) (f : ToolFunc α) :
    List (String × ToolFunc α) :=
  tools ++ [(f.name, f)]

/-- Embedding of the `wrapper_decorator` installed by
`wrap_server_tool_method`: appends the name of `func` to the tracked list,
wraps `func` with the exception boundary, forwards the wrapped function to
the original decorator `od`, and returns the forwarding result. -/
def tracking_register (od : ToolFunc α → β) (tracked : List String)
    (func : ToolFunc α) : List String × β :=
  (tracked ++ [func.name], od (global_exception_handler func))

/-- Server state touched by the interceptor: `server._tracked_tools` and the
FastMCP dispatch table `server._tool_manager._tools`. -/
structure Server (α : Type) where
  tracked_tools : List String
  tools : List (String × ToolFunc α)

/-- One registration through the installed interceptor against the concrete
host model: `tracking_register` with `host_register` as the original entry
point. -/
def register_with_interceptor (s : Server α) (func : ToolFunc α) :
    Server α :=
  let r := tracking_register (host_register s.tools) s.tracked_tools func
  { tracked_tools := r.1, tools := r.2 }

/-- Sequential registration of a list of tool functions, as the tool modules
perform at startup. -/
def register_all (s : Server α) (fs : List (ToolFunc α)) : Server α :=
  fs.foldl register_with_interceptor s

/-- Embedding of `filter_server_tools`: under an open policy the table is
untouched and nothing is logged; under a closed policy every entry whose key
is not enabled is deleted, and when at least one entry was removed a log line
`(tools_removed, len(enabled_tools))` is emitted. -/
def filter_server_tools (enabledTools : Option (Finset String))
    (tools : List (String × η)) : List (String × η) × Option (Nat × Nat) :=
  match enabledTools with
  | none => (tools, none)
  | some enabled =>
      let tools_to_remove :=
        tools.filter (fun p => !(is_tool_enabled (some enabled) p.1))
      let kept := tools.filter (fun p => is_tool_enabled (some enabled) p.1)
      (kept,
        if 0 < tools_to_remove.length then
          some (tools_to_remove.length, enabled.card)
        else none)

/-- Substring containment: `t` occurs contiguously inside `s`. -/
def strContains (s t : String) : Prop :=
  ∃ a b : String, s = a ++ (t ++ b)

theorem strContains_here (a t b : String) : strContains (a ++ (t ++ b)) t :=
  ⟨a, b, rfl⟩

theorem strContains_head (t b : String) : strContains (t ++ b) t :=
  ⟨"", b, rfl⟩

theorem strContains_append_left (x s t : String) (h : strContains s t) :
    strContains (x ++ s) t := by
  obtain ⟨a, b, hab⟩ := h
  exact ⟨x ++ a, b, by rw [hab]; exact (String.append_assoc x a (t ++ b)).symm⟩

/-- Claim C1: after `filter_server_tools` runs under a closed policy the key
set of the dispatch table is a subset of the enabled set, every key present
before the filter and not enabled has been removed, and under an open policy
the dispatch table is unchanged by filtering. -/
theorem filter_respects_enablement_policy {η : Type}
    (enabled : Finset String) (tools : List (String × η)) :
    (∀ k ∈ ((filter_server_tools (some enabled) tools).1.map Prod.fst),
      k ∈ enabled) ∧
    (∀ k ∈ (tools.map Prod.fst), k ∉ enabled →
      k ∉ ((filter_server_tools (some enabled) tools).1.map Prod.fst)) ∧
    (filter_server_tools (η := η) none tools).1 = tools := by
  have h1 : ∀ k ∈ ((filter_server_tools (some enabled) tools).1.map Prod.fst),
      k ∈ enabled := by
    intro k hk
    simp only [filter_server_tools, List.mem_map, List.mem_filter] at hk
    obtain ⟨p, ⟨_, hp⟩, rfl⟩ := hk
    simpa [is_tool_enabled] using hp
  exact ⟨h1, fun k _ hkn hmem => hkn (h1 k hmem), rfl⟩

/-- Witness for C1 at a concrete table: the disabled tool is gone after the
filter pass. -/
theorem filter_respects_enablement_policy_witness :
    "tool_b" ∉ ((filter_server_tools (some {"tool_a"})
      [("tool_a", ()), ("tool_b", ())]).1.map Prod.fst) :=
  (filter_respects_enablement_policy {"tool_a"}
    [("tool_a", ()), ("tool_b", ())]).2.1 "tool_b" (by decide) (by decide)

/-- Claim C2: when the wrapped function raises an ordinary exception whose
message does not start with any recognised pre-formatted tag, the boundary
returns (never raises) a string containing the tool name, the exception type
name, and the exception message. -/
theorem boundary_formats_unrecognized_exceptions {α : Type}
    (f : ToolFunc α) (x : α) (error_type error_str : String)
    (hrun : f.run x = Outcome.exc error_type error_str)
    (h1 : str_starts_with error_str "**" = false)
    (h2 : str_starts_with error_str "Error:" = false)
    (h3 : str_starts_with error_str "API error" = false)
    (h4 : str_starts_with error_str "âŒ" = false) :
    ∃ msg : String,
      (global_exception_handler f).run x = Outcome.ok msg ∧
      strContains msg f.name ∧ strContains msg error_type ∧
      strContains msg error_str := by
  refine ⟨generic_error_message f.name error_type error_str, ?_, ?_, ?_, ?_⟩
  · simp [global_exception_handler, handle_outcome, hrun, looks_preformatted,
      h1, h2, h3, h4]
  · exact strContains_here _ _ _
  · exact strContains_append_left _ _ _
      (strContains_append_left _ _ _ (strContains_here _ _ _))
  · exact strContains_append_left _ _ _
      (strContains_append_left _ _ _ (strContains_append_left _ _ _
        (strContains_append_left _ _ _ (strContains_append_left _ _ _
          (strContains_head _ _)))))

/-- Witness for C2: a plain runtime fault with message "division by zero"
is converted into a returned string that names the tool, the kind and the
message. -/
theorem boundary_formats_unrecognized_exceptions_witness :
    ∃ msg : String,
      (global_exception_handler
        (⟨"my_tool", fun _ : Unit =>
          Outcome.exc "ValueError" "division by zero"⟩ : ToolFunc Unit)).run
        () = Outcome.ok msg ∧
      strContains msg "my_tool" ∧ strContains msg "ValueError" ∧
      strContains msg "division by zero" :=
  boundary_formats_unrecognized_exceptions
    (⟨"my_tool", fun _ => Outcome.exc "ValueError" "division by zero"⟩ :
      ToolFunc Unit)
    () "ValueError" "division by zero" rfl (by decide) (by decide) (by decide)
    (by decide)

/-- Claim C3: when the wrapped function raises an ordinary exception whose
message starts with a bold marker, with the literal error tag, with the
API-error tag, or with the corrupted-emoji sequence, the boundary returns
exactly that message unchanged. -/
theorem boundary_passes_preformatted_messages {α : Type}
    (f : ToolFunc α) (x : α) (error_type error_str : String)
    (hrun : f.run x = Outcome.exc error_type error_str)
    (h : str_starts_with error_str "**" = true ∨
      str_starts_with error_str "Error:" = true ∨
      str_starts_with error_str "API error" = true ∨
      str_starts_with error_str "âŒ" = true) :
    (global_exception_handler f).run x = Outcome.ok error_str := by
  have hp : looks_preformatted error_str = true := by
    unfold looks_preformatted
    rcases h with h | h | h | h <;> simp [h]
  simp [global_exception_handler, handle_outcome, hrun, hp]

/-- Witness for C3, scenario D of the spec: a condition with message
"Error: invalid spreadsheet ID" is returned verbatim. -/
theorem boundary_passes_preformatted_messages_witness :
    (global_exception_handler
      (⟨"sheets_tool", fun _ : Unit =>
        Outcome.exc "Exception" "Error: invalid spreadsheet ID"⟩ :
        ToolFunc Unit)).run () =
      Outcome.ok "Error: invalid spreadsheet ID" :=
  boundary_passes_preformatted_messages _ () "Exception"
    "Error: invalid spreadsheet ID" rfl (Or.inr (Or.inl (by decide)))

/-- Claim C4: the boundary re-raises the deliberate shutdown signal
unchanged, the shutdown signal is the only raise that escapes (an escaping
shutdown signal implies the wrapped function raised it), and the wrapper
never raises an ordinary exception. -/
theorem boundary_reraises_shutdown_signal_only {α : Type}
    (f : ToolFunc α) (x : α) :
    (f.run x = Outcome.keyboardInterrupt →
      (global_exception_handler f).run x = Outcome.keyboardInterrupt) ∧
    ((global_exception_handler f).run x = Outcome.keyboardInterrupt →
      f.run x = Outcome.keyboardInterrupt) ∧
    (∀ error_type error_str : String,
      (global_exception_handler f).run x ≠
        Outcome.exc error_type error_str) := by
  refine ⟨fun h => by simp [global_exception_handler, handle_outcome, h],
    ?_, ?_⟩
  · intro h
    cases hrun : f.run x with
    | ok r => simp [global_exception_handler, handle_outcome, hrun] at h
    | keyboardInterrupt => rfl
    | exc ty ms =>
        simp only [global_exception_handler, handle_outcome, hrun] at h
        split at h <;> simp at h
  · intro ty ms h
    cases hrun : f.run x with
    | ok r => simp [global_exception_handler, handle_outcome, hrun] at h
    | keyboardInterrupt =>
        simp [global_exception_handler, handle_outcome, hrun] at h
    | exc ty2 ms2 =>
        simp only [global_exception_handler, handle_outcome, hrun] at h
        split at h <;> simp at h

/-- Witness for C4: a tool raising the shutdown signal propagates it through
the wrapper. -/
theorem boundary_reraises_shutdown_signal_only_witness :
    (global_exception_handler
      (⟨"kb_tool", fun _ : Unit => Outcome.keyboardInterrupt⟩ :
        ToolFunc Unit)).run () = Outcome.keyboardInterrupt :=
  (boundary_reraises_shutdown_signal_only
    (⟨"kb_tool", fun _ => Outcome.keyboardInterrupt⟩ : ToolFunc Unit) ()).1
    rfl

/-- Claim C5: one intercepted registration appends the name of the function
to the tracked list, forwards exactly the boundary-wrapped function to the
original registration entry point, and returns the forwarding result; over a
sequence of registrations the tracked list accumulates the names in
registration order. -/
theorem interceptor_registration_contract {α : Type} {β : Type}
    (od : ToolFunc α → β) (tracked : List String) (func : ToolFunc α) :
    tracking_register od tracked func =
      (tracked ++ [func.name], od (global_exception_handler func)) ∧
    ∀ (s : Server α) (fs : List (ToolFunc α)),
      (register_all s fs).tracked_tools =
        s.tracked_tools ++ fs.map ToolFunc.name := by
  refine ⟨rfl, ?_⟩
  intro s fs
  induction fs generalizing s with
  | nil => simp [register_all]
  | cons g gs ih =>
      have : register_all s (g :: gs) =
          register_all (register_with_interceptor s g) gs := rfl
      rw [this, ih]
      simp [register_with_interceptor, tracking_register]

/-- Claim C6: a normal return value passes through the boundary unchanged,
and whenever the wrapped function does not raise the shutdown signal the
wrapper returns a result rather than raising. -/
theorem boundary_passthrough_and_totality {α : Type}
    (f : ToolFunc α) (x : α) :
    (∀ r : String, f.run x = Outcome.ok r →
      (global_exception_handler f).run x = Outcome.ok r) ∧
    (f.run x ≠ Outcome.keyboardInterrupt →
      ∃ s : String, (global_exception_handler f).run x = Outcome.ok s) := by
  constructor
  · intro r h
    simp [global_exception_handler, handle_outcome, h]
  · intro h
    cases hrun : f.run x with
    | ok r => exact ⟨r, by simp [global_exception_handler, handle_outcome, hrun]⟩
    | keyboardInterrupt => exact absurd hrun h
    | exc ty ms =>
        simp only [global_exception_handler, handle_outcome, hrun]
        split
        · exact ⟨ms, rfl⟩
        · exact ⟨generic_error_message f.name ty ms, rfl⟩

/-- Witness for C6: a successful invocation returns its value unchanged
through the wrapper. -/
theorem boundary_passthrough_and_totality_witness :
    (global_exception_handler
      (⟨"ok_tool", fun _ : Unit => Outcome.ok "hello"⟩ :
        ToolFunc Unit)).run () = Outcome.ok "hello" :=
  (boundary_passthrough_and_totality
    (⟨"ok_tool", fun _ => Outcome.ok "hello"⟩ : ToolFunc Unit) ()).1 "hello"
    rfl

/-- Claim C7: `is_tool_enabled` is total and returns true exactly when the
policy is open or the name is a member of the enabled set; as a pure read of
the explicit state it returns the same result on repeated calls with no
intervening `set_enabled_tools`. -/
theorem is_tool_enabled_total_characterization
    (enabledTools : Option (Finset String)) (tool_name : String) :
    (is_tool_enabled enabledTools tool_name = true ↔
      enabledTools = none ∨
      ∃ s : Finset String, enabledTools = some s ∧ tool_name ∈ s) ∧
    is_tool_enabled (get_enabled_tools enabledTools) tool_name =
      is_tool_enabled (get_enabled_tools enabledTools) tool_name := by
  refine ⟨?_, rfl⟩
  cases enabledTools with
  | none => simp [is_tool_enabled]
  | some s => simp [is_tool_enabled]

/-- Witness for C7: a member of a closed enabled set evaluates to enabled. -/
theorem is_tool_enabled_total_characterization_witness :
    is_tool_enabled (some {"tool_a"}) "tool_a" = true :=
  (is_tool_enabled_total_characterization (some {"tool_a"}) "tool_a").1.mpr
    (Or.inr ⟨{"tool_a"}, rfl, by decide⟩)

/-- Claim C9: the boundary wrapper keeps the name of the wrapped function,
so the tracked name, the dispatch-table key under which the host registers
the wrapped function, and the name in any synthesized error message all
equal the original function name. -/
theorem wrapper_preserves_tool_name {α : Type} (f : ToolFunc α) :
    (global_exception_handler f).name = f.name ∧
    (∀ s : Server α,
      (register_with_interceptor s f).tracked_tools =
        s.tracked_tools ++ [f.name] ∧
      (register_with_interceptor s f).tools =
        s.tools ++ [(f.name, global_exception_handler f)]) ∧
    (∀ (x : α) (error_type error_str : String),
      f.run x = Outcome.exc error_type error_str →
      looks_preformatted error_str = false →
      (global_exception_handler f).run x =
        Outcome.ok (generic_error_message f.name error_type error_str)) := by
  refine ⟨rfl, fun s => ⟨rfl, rfl⟩, ?_⟩
  intro x ty ms hrun hflat
  simp [global_exception_handler, handle_outcome, hrun, hflat]

/-- Witness for C9: a concrete wrapped tool keeps its name and the
synthesized message is built from that same name. -/
theorem wrapper_preserves_tool_name_witness :
    (global_exception_handler
      (⟨"named_tool", fun _ : Unit => Outcome.exc "TypeError" "boom"⟩ :
        ToolFunc Unit)).name = "named_tool" ∧
    (global_exception_handler
      (⟨"named_tool", fun _ : Unit => Outcome.exc "TypeError" "boom"⟩ :
        ToolFunc Unit)).run () =
      Outcome.ok (generic_error_message "named_tool" "TypeError" "boom") :=
  ⟨(wrapper_preserves_tool_name
      (⟨"named_tool", fun _ => Outcome.exc "TypeError" "boom"⟩ :
        ToolFunc Unit)).1,
    (wrapper_preserves_tool_name
      (⟨"named_tool", fun _ => Outcome.exc "TypeError" "boom"⟩ :
        ToolFunc Unit)).2.2 () "TypeError" "boom" rfl (by decide)⟩

/-- Claim C10: when the tool is disabled, `conditional_tool` returns the
function unchanged and never invokes the registration surface; when enabled,
it returns the result of registering through the surface. -/
theorem conditional_tool_enablement_behaviour {σ α : Type}
    (enabledTools : Option (Finset String))
    (regFn : σ → ToolFunc α → σ × ToolFunc α) (tool_name : String)
    (func : ToolFunc α) (s : σ) :
    (is_tool_enabled enabledTools tool_name = false →
      conditional_tool enabledTools regFn tool_name func s = (s, func)) ∧
    (is_tool_enabled enabledTools tool_name = true →
      conditional_tool enabledTools regFn tool_name func s = regFn s func) := by
  constructor <;> intro h <;> simp [conditional_tool, h]

/-- Witness for C10: a tool outside the closed enabled set is skipped, the
server state is untouched and the function comes back unchanged. -/
theorem conditional_tool_enablement_behaviour_witness :
    conditional_tool (some {"tool_a"})
      (fun (d : List (String × ToolFunc Unit)) g => (host_register d g, g))
      "tool_b" (⟨"tool_b", fun _ => Outcome.ok "hi"⟩ : ToolFunc Unit) [] =
      ([], (⟨"tool_b", fun _ => Outcome.ok "hi"⟩ : ToolFunc Unit)) :=
  (conditional_tool_enablement_behaviour (some {"tool_a"})
    (fun d g => (host_register d g, g)) "tool_b"
    (⟨"tool_b", fun _ => Outcome.ok "hi"⟩ : ToolFunc Unit) []).1 (by decide)

/-- Counterexample for C8 as stated: under the closed policy with enabled
set containing only tool_a and a dispatch table holding only tool_a, the
filter removes nothing and emits no log line at all, so the filter does not
always report counts under a closed policy. -/
theorem filter_logging_counterexample :
    (filter_server_tools (some {"tool_a"}) [("tool_a", ())]).2 = none := by
  rfl

/-- Claim C8 as amended: under a closed policy the filter emits the log line
with the removal count and the size of the enabled set exactly when at least
one entry was removed; in scenario A the table keeps only tool_a and the log
reports 1 removed and 1 enabled, the latter equal to the number of tools
remaining in the dispatch table. -/
theorem filter_logs_removal_summary {η : Type}
    (enabled : Finset String) (tools : List (String × η)) :
    (0 < (tools.filter
        (fun p => !(is_tool_enabled (some enabled) p.1))).length →
      (filter_server_tools (some enabled) tools).2 =
        some ((tools.filter
          (fun p => !(is_tool_enabled (some enabled) p.1))).length,
          enabled.card)) ∧
    ((tools.filter
        (fun p => !(is_tool_enabled (some enabled) p.1))).length = 0 →
      (filter_server_tools (some enabled) tools).2 = none) ∧
    (∀ h : η,
      filter_server_tools (some {"tool_a"}) [("tool_a", h), ("tool_b", h)] =
        ([("tool_a", h)], some (1, 1)) ∧
      (1 : Nat) = (filter_server_tools (some {"tool_a"})
        [("tool_a", h), ("tool_b", h)]).1.length) := by
  refine ⟨?_, ?_, ?_⟩
  · intro hpos
    simp only [filter_server_tools]
    rw [if_pos hpos]
  · intro hzero
    simp only [filter_server_tools]
    rw [hzero]
    simp
  · intro h
    constructor
    · show ([("tool_a", h), ("tool_b", h)].filter
          (fun p => is_tool_enabled (some {"tool_a"}) p.1),
        if 0 < ([("tool_a", h), ("tool_b", h)].filter
            (fun p => !(is_tool_enabled (some {"tool_a"}) p.1))).length then
          some (([("tool_a", h), ("tool_b", h)].filter
            (fun p => !(is_tool_enabled (some {"tool_a"}) p.1))).length,
            ({"tool_a"} : Finset String).card)
        else none) = ([("tool_a", h)], some (1, 1))
      simp [is_tool_enabled, List.filter]
    · simp [filter_server_tools, is_tool_enabled, List.filter]

/-- Witness for the amended C8 at scenario A: the log line carries 1 removed
and 1 enabled. -/
theorem filter_logs_removal_summary_witness :
    (filter_server_tools (some {"tool_a"})
      [("tool_a", ()), ("tool_b", ())]).2 = some (1, 1) :=
  (filter_logs_removal_summary {"tool_a"}
    [("tool_a", ()), ("tool_b", ())]).1 (by decide)

end ToolRegistry
